import Mathlib

/-!
Verification of the beat-subdivision table, timeline settings and plugin
wiring of `src/lib.rs` (bevy_kira_audio).

The embedding models `f64` values abstractly: an IEEE-754 binary64 value is
either a NaN, an infinity, a negative zero, or a finite number identified by
the exact rational it denotes (positive zero is `finite 0`).  The only f64
operation the embedded code performs is the IEEE `==` comparison, modelled by
`F64.beq`.  Finite f64 values form a subset of the rationals, so quantifying
over all of `F64` covers every actual f64 bit pattern.
-/

/-- Model of an IEEE-754 binary64 (`f64`) value, as far as the code under
verification can observe one: NaN, the two infinities, negative zero, and
finite values identified by their exact rational value (`finite 0` is +0.0). -/
inductive F64 where
  | nan : F64
  | posInf : F64
  | negInf : F64
  | negZero : F64
  | finite : ℚ → F64
  deriving DecidableEq, Repr

/-- IEEE-754 equality (`==` on `f64` in Rust): NaN compares unequal to
everything (itself included), `-0.0 == 0.0` holds, infinities compare equal
only to themselves, and finite values compare by numeric value. -/
def F64.beq : F64 → F64 → Bool
  | .nan, _ => false
  | _, .nan => false
  | .posInf, .posInf => true
  | .negInf, .negInf => true
  | .negZero, .negZero => true
  | .negZero, .finite q => q = 0
  | .finite q, .negZero => q = 0
  | .finite q, .finite r => q = r
  | _, _ => false

/-- The exact rational value of the f64 expression `1. / 3.`: `1/3` lies in
`[2 ^ (-2), 2 ^ (-1))` where binary64 spacing is `2 ^ (-54)`, and rounding to
nearest gives the dyadic `6004799503160661 / 2 ^ 54` (certified below by
`third_f64_is_nearest`). -/
def thirdF64 : ℚ := 6004799503160661 / 2 ^ 54

/-- The exact rational value of the f64 expression `1. / 6.`. -/
def sixthF64 : ℚ := 6004799503160661 / 2 ^ 55

/-- The exact rational value of the f64 expression `1. / 12.`. -/
def twelfthF64 : ℚ := 6004799503160661 / 2 ^ 56

/-- The exact rational value of the f64 expression `1. / 24.`. -/
def twentyFourthF64 : ℚ := 6004799503160661 / 2 ^ 57

/-- `enum BeatEvent` (src/lib.rs lines 73-84), in declaration order. -/
inductive BeatEvent where
  | Whole
  | Half
  | Quarter
  | Eighth
  | Sixteenth
  | HalfTriplet
  | QuarterTriplet
  | EighthTriplet
  | SixteenthTriplet
  deriving DecidableEq, Repr, Fintype

/-- `BeatEvent::to_subdivision` (src/lib.rs lines 110-122).  The dyadic
literals `0.`, `0.5`, `0.25`, `0.125`, `0.0625` are exact in binary64; the
triplet branches are the constant expressions `1. / 3.` … `1. / 24.`, whose
exact f64 results are the rationals `thirdF64` … `twentyFourthF64` above. -/
def BeatEvent.to_subdivision : BeatEvent → F64
  | .Whole => .finite 0
  | .Half => .finite (1 / 2)
  | .Quarter => .finite (1 / 4)
  | .Eighth => .finite (1 / 8)
  | .Sixteenth => .finite (1 / 16)
  | .HalfTriplet => .finite thirdF64
  | .QuarterTriplet => .finite sixthF64
  | .EighthTriplet => .finite twelfthF64
  | .SixteenthTriplet => .finite twentyFourthF64

/-- `const BEAT_EVENTS: [BeatEvent; 9]` (src/lib.rs lines 86-96). -/
def BEAT_EVENTS : List BeatEvent :=
  [.Whole, .Half, .Quarter, .Eighth, .Sixteenth,
   .HalfTriplet, .QuarterTriplet, .EighthTriplet, .SixteenthTriplet]

/-- `const BEAT_SUBDIVISIONS: [f64; 9]` (src/lib.rs lines 97-107): each entry
is written in the source as a `to_subdivision` call on the corresponding
`BEAT_EVENTS` entry. -/
def BEAT_SUBDIVISIONS : List F64 :=
  [BeatEvent.Whole.to_subdivision,
   BeatEvent.Half.to_subdivision,
   BeatEvent.Quarter.to_subdivision,
   BeatEvent.Eighth.to_subdivision,
   BeatEvent.Sixteenth.to_subdivision,
   BeatEvent.HalfTriplet.to_subdivision,
   BeatEvent.QuarterTriplet.to_subdivision,
   BeatEvent.EighthTriplet.to_subdivision,
   BeatEvent.SixteenthTriplet.to_subdivision]

/-- Result of a Rust computation that may panic (here: out-of-bounds array
indexing).  `ok v` is normal completion with value `v`. -/
inductive PanicOr (α : Type) where
  | panicked : String → PanicOr α
  | ok : α → PanicOr α
  deriving DecidableEq, Repr

/-- The `for check_sub in BEAT_SUBDIVISIONS` loop of
`BeatEvent::from_subdivision` (src/lib.rs lines 125-132), with its manual
counter `i`.  The source indexes `BEAT_EVENTS[i]`, which panics when
`i` is out of bounds; that indexing is modelled by `BEAT_EVENTS[i]?` with the
`none` case mapped to `panicked`. -/
def fromSubdivisionLoop (sub : F64) : Nat → List F64 → PanicOr (Option BeatEvent)
  | _, [] => .ok none
  | i, check_sub :: rest =>
    if F64.beq sub check_sub then
      match BEAT_EVENTS[i]? with
      | some e => .ok (some e)
      | none => .panicked "index out of bounds"
    else
      fromSubdivisionLoop sub (i + 1) rest

/-- `BeatEvent::from_subdivision` (src/lib.rs lines 124-135). -/
def BeatEvent.from_subdivision (sub : F64) : PanicOr (Option BeatEvent) :=
  fromSubdivisionLoop sub 0 BEAT_SUBDIVISIONS

/-- `enum TimelineState` (src/lib.rs lines 138-143). -/
inductive TimelineState where
  | Playing
  | Paused
  | Stopped
  deriving DecidableEq, Repr

/-- `struct TimelineSettings` (src/lib.rs lines 145-150): a tempo in beats
per minute (`bpm: f64`) and a `TimelineState`. -/
structure TimelineSettings where
  bpm : F64
  state : TimelineState
  deriving DecidableEq, Repr

/-- `impl Default for TimelineSettings` (src/lib.rs lines 152-159): the f64
literal `120.` and state `Stopped`. -/
def TimelineSettings.default : TimelineSettings :=
  ⟨.finite 120, .Stopped⟩

/-- The Bevy `CoreStage` labels used by the host frame loop.  Modelled from
the spec: the host runs the stages of one frame in a fixed order with the
game-logic update in `Update`, `PreUpdate` before it and `PostUpdate` after
it (spec section 5: components run in a fixed order, output reconciliation
after game logic). -/
inductive CoreStage where
  | First
  | PreUpdate
  | Update
  | PostUpdate
  | Last
  deriving DecidableEq, Repr

/-- Position of a stage inside one frame: stages run in increasing index
order each frame. -/
def CoreStage.index : CoreStage → Nat
  | .First => 0
  | .PreUpdate => 1
  | .Update => 2
  | .PostUpdate => 3
  | .Last => 4

/-- The systems src/lib.rs imports from `audio_output` and registers in the
plugin `build` functions (src/lib.rs lines 46-49). -/
inductive SystemId where
  | init_metronome_system
  | metronome_events_system
  | play_queued_audio_system
  | update_instance_states_system
  | stream_audio_system
  deriving DecidableEq, Repr

/-- The resource and asset types the plugin `build` functions register. -/
inductive ResourceId where
  | AudioOutput
  | AudioSource
  | LastTimelineSettings
  | TimelineSettings
  | Audio
  | StreamedAudio
  deriving DecidableEq, Repr

/-- The registrations a plugin `build` function performs on the Bevy `App`,
recorded in call order: non-send resources, assets, resources, startup
systems, and per-stage systems together with their `exclusive_system` flag. -/
structure App where
  nonSendResources : List ResourceId
  assets : List ResourceId
  resources : List ResourceId
  startupSystems : List SystemId
  stageSystems : List (CoreStage × SystemId × Bool)
  deriving DecidableEq, Repr

/-- An `App` with nothing registered yet. -/
def App.new : App := ⟨[], [], [], [], []⟩

/-- `App::init_non_send_resource::<T>()`. -/
def App.init_non_send_resource (app : App) (r : ResourceId) : App :=
  { app with nonSendResources := app.nonSendResources ++ [r] }

/-- `App::add_asset::<T>()`. -/
def App.add_asset (app : App) (a : ResourceId) : App :=
  { app with assets := app.assets ++ [a] }

/-- `App::add_startup_system(s)`. -/
def App.add_startup_system (app : App) (s : SystemId) : App :=
  { app with startupSystems := app.startupSystems ++ [s] }

/-- `App::init_resource::<T>()`. -/
def App.init_resource (app : App) (r : ResourceId) : App :=
  { app with resources := app.resources ++ [r] }

/-- `App::add_system_to_stage(stage, s)`; `exclusive` records whether the
call site wrapped the system with `.exclusive_system()`. -/
def App.add_system_to_stage (app : App) (stage : CoreStage) (s : SystemId)
    (exclusive : Bool) : App :=
  { app with stageSystems := app.stageSystems ++ [(stage, s, exclusive)] }

/-- `struct AudioPlugin` (src/lib.rs line 196). -/
structure AudioPlugin where

/-- `impl Plugin for AudioPlugin`, `fn build` (src/lib.rs lines 198-226), in
source call order.  The feature-gated `init_asset_loader` calls (lines
205-214, behind `cfg(feature = ...)`) are omitted: they register format
decoders, not resources or systems, and depend on compile-time features. -/
def AudioPlugin.build (_self : AudioPlugin) (app : App) : App :=
  let app := app.init_non_send_resource .AudioOutput
  let app := app.add_asset .AudioSource
  let app := app.add_startup_system .init_metronome_system
  let app := app.init_resource .LastTimelineSettings
  let app := app.init_resource .TimelineSettings
  let app := app.init_resource .Audio
  let app := app.add_system_to_stage .PreUpdate .metronome_events_system false
  let app := app.add_system_to_stage .PostUpdate .play_queued_audio_system false
  app.add_system_to_stage .PreUpdate .update_instance_states_system true

/-- `struct AudioStreamPlugin<T>` (src/lib.rs lines 280-283).  The type
parameter `T` only selects the stream type; it does not affect which stage
the stream system is added to, so it is not modelled. -/
structure AudioStreamPlugin where

/-- `impl Plugin for AudioStreamPlugin<T>`, `fn build` (src/lib.rs lines
285-293). -/
def AudioStreamPlugin.build (_self : AudioStreamPlugin) (app : App) : App :=
  let app := app.init_resource .StreamedAudio
  app.add_system_to_stage .PostUpdate .stream_audio_system false

/-- `thirdF64` is within half an ulp of `1/3` (the ulp at `1/3` is
`2 ^ (-54)`), and its significand `6004799503160661 < 2 ^ 53`, so it is the
binary64 value nearest to `1/3`. -/
theorem third_f64_is_nearest :
    |thirdF64 - 1 / 3| < 1 / 2 ^ 55 ∧ (6004799503160661 : ℕ) < 2 ^ 53 := by
  constructor
  · rw [thirdF64, abs_sub_lt_iff]
    norm_num
  · norm_num

/-- `sixthF64` is within half an ulp of `1/6` (the ulp at `1/6` is
`2 ^ (-55)`), so it is the binary64 value nearest to `1/6`. -/
theorem sixth_f64_is_nearest : |sixthF64 - 1 / 6| < 1 / 2 ^ 56 := by
  rw [sixthF64, abs_sub_lt_iff]
  norm_num

/-- `twelfthF64` is within half an ulp of `1/12` (the ulp at `1/12` is
`2 ^ (-56)`), so it is the binary64 value nearest to `1/12`. -/
theorem twelfth_f64_is_nearest : |twelfthF64 - 1 / 12| < 1 / 2 ^ 57 := by
  rw [twelfthF64, abs_sub_lt_iff]
  norm_num

/-- `twentyFourthF64` is within half an ulp of `1/24` (the ulp at `1/24` is
`2 ^ (-57)`), so it is the binary64 value nearest to `1/24`. -/
theorem twenty_fourth_f64_is_nearest : |twentyFourthF64 - 1 / 24| < 1 / 2 ^ 58 := by
  rw [twentyFourthF64, abs_sub_lt_iff]
  norm_num

/-- `from_subdivision` fully unfolded over the nine-entry table: a chain of
IEEE comparisons in table order, falling through to `none`. -/
theorem from_subdivision_eq (f : F64) : BeatEvent.from_subdivision f =
    if F64.beq f BeatEvent.Whole.to_subdivision then .ok (some .Whole)
    else if F64.beq f BeatEvent.Half.to_subdivision then .ok (some .Half)
    else if F64.beq f BeatEvent.Quarter.to_subdivision then .ok (some .Quarter)
    else if F64.beq f BeatEvent.Eighth.to_subdivision then .ok (some .Eighth)
    else if F64.beq f BeatEvent.Sixteenth.to_subdivision then .ok (some .Sixteenth)
    else if F64.beq f BeatEvent.HalfTriplet.to_subdivision then .ok (some .HalfTriplet)
    else if F64.beq f BeatEvent.QuarterTriplet.to_subdivision then .ok (some .QuarterTriplet)
    else if F64.beq f BeatEvent.EighthTriplet.to_subdivision then .ok (some .EighthTriplet)
    else if F64.beq f BeatEvent.SixteenthTriplet.to_subdivision then .ok (some .SixteenthTriplet)
    else .ok none := rfl

example : BeatEvent.from_subdivision (.finite (1 / 4)) = .ok (some .Quarter) := by
  norm_num [from_subdivision_eq, F64.beq, BeatEvent.to_subdivision]

example : BeatEvent.from_subdivision .nan = .ok none := by decide

example : BeatEvent.from_subdivision .negZero = .ok (some .Whole) := by decide

example : BeatEvent.from_subdivision (.finite thirdF64) = .ok (some .HalfTriplet) := by
  norm_num [from_subdivision_eq, F64.beq, BeatEvent.to_subdivision, thirdF64]

/-- Claim C1: round-trip of the subdivision table — for every `BeatEvent`
variant `s` (all nine of them), `from_subdivision (to_subdivision s)`
returns `Some s` without panicking. -/
theorem claim_C1_roundtrip :
    ∀ s : BeatEvent, BeatEvent.from_subdivision s.to_subdivision = .ok (some s) := by
  intro s
  cases s <;>
    norm_num [from_subdivision_eq, F64.beq, BeatEvent.to_subdivision,
      thirdF64, sixthF64, twelfthF64, twentyFourthF64]

/-- Claim C2 counterexample: `-0.0` is not one of the nine canonical f64
constants produced by `to_subdivision` (whose zero is `+0.0`), yet
`from_subdivision (-0.0)` returns `Some Whole`, not `None` as the claim
demands, because IEEE `==` identifies `-0.0` with `0.0`. -/
theorem claim_C2_counterexample :
    (∀ s : BeatEvent, F64.negZero ≠ s.to_subdivision) ∧
      BeatEvent.from_subdivision .negZero = .ok (some .Whole) := by
  constructor
  · intro s
    cases s <;> simp [BeatEvent.to_subdivision]
  · decide

/-- Claim C2 (amended): for every f64 input `f` that is not IEEE-equal
(`==`) to any of the nine canonical subdivision constants,
`from_subdivision f` returns `None`; matching is by exact floating-point
equality with no tolerance, under which NaN and values infinitesimally close
to a canonical constant match nothing, while `-0.0` is IEEE-equal to the
canonical `0.0` and therefore returns `Some Whole`. -/
theorem claim_C2_amended :
    ∀ f : F64, (∀ s : BeatEvent, F64.beq f s.to_subdivision = false) →
      BeatEvent.from_subdivision f = .ok none := by
  intro f h
  rw [from_subdivision_eq]
  simp [h]

/-- Claim C2 witness: NaN is IEEE-equal to none of the nine constants, and
`from_subdivision NaN` is `None`. -/
theorem claim_C2_witness :
    (∀ s : BeatEvent, F64.beq .nan s.to_subdivision = false) ∧
      BeatEvent.from_subdivision .nan = .ok none :=
  ⟨by decide, claim_C2_amended .nan (by decide)⟩

/-- Claim C3: `BEAT_EVENTS` lists the nine variants in exactly the order
Whole, Half, Quarter, Eighth, Sixteenth, HalfTriplet, QuarterTriplet,
EighthTriplet, SixteenthTriplet. -/
theorem claim_C3_declaration_order :
    BEAT_EVENTS.length = 9 ∧
      BEAT_EVENTS[0]? = some .Whole ∧
      BEAT_EVENTS[1]? = some .Half ∧
      BEAT_EVENTS[2]? = some .Quarter ∧
      BEAT_EVENTS[3]? = some .Eighth ∧
      BEAT_EVENTS[4]? = some .Sixteenth ∧
      BEAT_EVENTS[5]? = some .HalfTriplet ∧
      BEAT_EVENTS[6]? = some .QuarterTriplet ∧
      BEAT_EVENTS[7]? = some .EighthTriplet ∧
      BEAT_EVENTS[8]? = some .SixteenthTriplet := by
  decide

/-- Claim C4: `from_subdivision` is a partial inverse of `to_subdivision` —
whenever it returns `Some s`, the canonical constant of `s` is IEEE-equal
(`==`) to the input. -/
theorem claim_C4_partial_inverse :
    ∀ (f : F64) (s : BeatEvent),
      BeatEvent.from_subdivision f = .ok (some s) →
        F64.beq f s.to_subdivision = true := by
  intro f s h
  rw [from_subdivision_eq] at h
  split_ifs at h with h1 h2 h3 h4 h5 h6 h7 h8 h9 <;> simp_all

/-- Claim C4 witness: at the input `0.25`, `from_subdivision` returns
`Some Quarter` and `0.25` is IEEE-equal to Quarter's canonical constant. -/
theorem claim_C4_witness :
    BeatEvent.from_subdivision (F64.finite (1 / 4)) = .ok (some .Quarter) ∧
      F64.beq (F64.finite (1 / 4)) BeatEvent.Quarter.to_subdivision = true :=
  ⟨by norm_num [from_subdivision_eq, F64.beq, BeatEvent.to_subdivision],
   claim_C4_partial_inverse (F64.finite (1 / 4)) .Quarter
     (by norm_num [from_subdivision_eq, F64.beq, BeatEvent.to_subdivision])⟩

/-- Claim C5: every variant other than `Whole` maps to a finite value in the
half-open interval (0, 1] — `Quarter` to exactly `0.25` — while `Whole` maps
to exactly (positive) zero, the "no subdivision, full-bar boundary" value. -/
theorem claim_C5_subdivision_range :
    (∀ s : BeatEvent, s ≠ .Whole →
        ∃ q : ℚ, s.to_subdivision = .finite q ∧ 0 < q ∧ q ≤ 1) ∧
      BeatEvent.Quarter.to_subdivision = .finite (1 / 4) ∧
      BeatEvent.Whole.to_subdivision = .finite 0 := by
  refine ⟨?_, rfl, rfl⟩
  intro s hs
  cases s
  case Whole => exact absurd rfl hs
  all_goals
    exact ⟨_, rfl, by norm_num [thirdF64, sixthF64, twelfthF64, twentyFourthF64]⟩

/-- Claim C6: the default `TimelineSettings` starts the state machine in
`Stopped` with a bpm of 120, a strictly positive tempo. -/
theorem claim_C6_default_settings :
    TimelineSettings.default.state = TimelineState.Stopped ∧
      TimelineSettings.default.bpm = F64.finite 120 ∧
      ∃ q : ℚ, TimelineSettings.default.bpm = F64.finite q ∧ 0 < q :=
  ⟨rfl, rfl, 120, rfl, by norm_num⟩

/-- Claim C7: `AudioPlugin::build` adds `metronome_events_system` and the
exclusive `update_instance_states_system` to `PreUpdate` and
`play_queued_audio_system` to `PostUpdate`; `AudioStreamPlugin::build` adds
`stream_audio_system` to `PostUpdate`; and the stage order runs `PreUpdate`
before the game-logic `Update`, which runs before `PostUpdate` — so the
metronome systems run before the command-queue drain each frame. -/
theorem claim_C7_system_stages :
    (CoreStage.PreUpdate, SystemId.metronome_events_system, false)
        ∈ (AudioPlugin.build ⟨⟩ App.new).stageSystems ∧
      (CoreStage.PreUpdate, SystemId.update_instance_states_system, true)
        ∈ (AudioPlugin.build ⟨⟩ App.new).stageSystems ∧
      (CoreStage.PostUpdate, SystemId.play_queued_audio_system, false)
        ∈ (AudioPlugin.build ⟨⟩ App.new).stageSystems ∧
      (CoreStage.PostUpdate, SystemId.stream_audio_system, false)
        ∈ (AudioStreamPlugin.build ⟨⟩ App.new).stageSystems ∧
      CoreStage.PreUpdate.index < CoreStage.Update.index ∧
      CoreStage.Update.index < CoreStage.PostUpdate.index := by
  decide

/-- Claim C8: the two parallel constant tables are index-aligned — at every
index `i < 9`, `BEAT_SUBDIVISIONS[i]` is exactly `to_subdivision` of
`BEAT_EVENTS[i]`. -/
theorem claim_C8_index_alignment :
    ∀ i : Fin 9, BEAT_SUBDIVISIONS[(i : ℕ)]? =
      (BEAT_EVENTS[(i : ℕ)]?).map BeatEvent.to_subdivision := by
  intro i
  fin_cases i <;> rfl

/-- Claim C9: `from_subdivision` is total and panic-free — for every f64
input (NaN, infinities and negative values included) the scan completes
normally, returning some optional variant and never an out-of-bounds
panic. -/
theorem claim_C9_no_panic :
    ∀ f : F64, ∃ r : Option BeatEvent, BeatEvent.from_subdivision f = .ok r := by
  intro f
  rw [from_subdivision_eq]
  split_ifs <;> exact ⟨_, rfl⟩

/-- Claim C10: `to_subdivision` is injective over the nine variants — the
canonical constants are pairwise distinct f64 values — so at most one entry
of `BEAT_SUBDIVISIONS` can equal any given input. -/
theorem claim_C10_injective :
    BEAT_EVENTS.Pairwise (fun a b => a.to_subdivision ≠ b.to_subdivision) ∧
      BEAT_SUBDIVISIONS.Pairwise (· ≠ ·) := by
  constructor <;>
    norm_num [BEAT_EVENTS, BEAT_SUBDIVISIONS, List.pairwise_cons,
      BeatEvent.to_subdivision, thirdF64, sixthF64, twelfthF64, twentyFourthF64]
